import Mathlib

/-!
Shallow embedding of the Event Management API (src/main.py): the identifier
codec (bson `ObjectId`), the reference validator (`validate_object_id`), the
document-store primitives the endpoints use (insert-one, find-one-by-id,
update-one-by-id with `$set`, delete-one-by-id, bounded find), and the
endpoint handlers for events, venues, attendees, bookings and media uploads.

Stateful endpoints are embedded as functions `DB → ... → DB × Except HTTPError α`:
the returned `DB` is the store state after the call, so "no write on error"
is a provable property of the translation, not an assumption.

The store assigns identifiers on insert; an endpoint that inserts takes the
identifier the store assigns as an extra argument `ins : Option ObjectId`
(`none` models a store that assigns no identifier, the defensive
`if not result.inserted_id` path of the source).
-/

/-- A bson `ObjectId` in its canonical (lower-case 24-hex-character) form.
`ObjectId(s)` in the source accepts a 24-character hexadecimal string and
`str(...)` renders it lower-case. -/
structure ObjectId where
  hex : String
deriving DecidableEq, Repr

/-- A character the ObjectId string syntax accepts. -/
def isHexChar (c : Char) : Bool :=
  c.isDigit || ('a' ≤ c && c ≤ 'f') || ('A' ≤ c && c ≤ 'F')

/-- Whether a string matches the document-store identifier syntax
(24 hexadecimal characters): the acceptance condition of `ObjectId(id_str)`. -/
def isValidObjectId (s : String) : Bool :=
  s.length == 24 && s.toList.all isHexChar

/-- Lower-casing of a string, character by character (hex strings only use
one-byte characters, so this matches Python's `str.lower`). -/
def strLower (s : String) : String := ⟨s.data.map Char.toLower⟩

/-- The identifier codec: `ObjectId(s)` in the source.  `none` is the
`InvalidId` exception; `some` carries the parsed id, whose canonical string
form (`str(obj_id)`) is the lower-cased input. -/
def parseObjectId (s : String) : Option ObjectId :=
  if isValidObjectId s then some ⟨strLower s⟩ else none

/-- Rendering `str(obj_id)`: the canonical string form of an identifier. -/
def ObjectId.toStr (o : ObjectId) : String := o.hex

/-- An `HTTPException(status_code, detail)` raised by a handler. -/
structure HTTPError where
  status : Nat
  detail : String
deriving DecidableEq, Repr

instance {ε α : Type} [DecidableEq ε] [DecidableEq α] : DecidableEq (Except ε α) := fun x y =>
  match x, y with
  | .error a, .error b => decidable_of_iff (a = b) (by simp)
  | .error _, .ok _ => isFalse (by simp)
  | .ok _, .error _ => isFalse (by simp)
  | .ok a, .ok b => decidable_of_iff (a = b) (by simp)

/-- A collection: documents keyed by their `_id`, in insertion order. -/
abbrev Coll (α : Type) : Type := List (ObjectId × α)

/-- Models `collection.find_one({"_id": oid})`. -/
def collFindOne {α : Type} (coll : Coll α) (oid : ObjectId) : Option α :=
  (List.find? (fun p => decide (p.1 = oid)) coll).map Prod.snd

/-- Models `collection.insert_one(doc)`: `ins` is the identifier the store assigns
(`none` models the store assigning no identifier, in which case nothing is
persisted).  Returns the collection after the call and `result.inserted_id`. -/
def insert_one {α : Type} (coll : Coll α) (doc : α) (ins : Option ObjectId) :
    Coll α × Option ObjectId :=
  match ins with
  | some i => (coll ++ [(i, doc)], some i)
  | none => (coll, none)

/-- Models `collection.update_one({"_id": oid}, {"$set": doc})` where `doc` carries
every model field: replaces the matched document's fields.  Returns the
collection after the call and `result.matched_count`. -/
def update_one {α : Type} (coll : Coll α) (oid : ObjectId) (doc : α) :
    Coll α × Nat :=
  match collFindOne coll oid with
  | some _ => (coll.map (fun p => if p.1 = oid then (oid, doc) else p), 1)
  | none => (coll, 0)

/-- Models `collection.delete_one({"_id": oid})`: removes the first matching
document.  Returns the collection after the call and `result.deleted_count`. -/
def delete_one {α : Type} (coll : Coll α) (oid : ObjectId) :
    Coll α × Nat :=
  match collFindOne coll oid with
  | some _ => (coll.eraseP (fun p => decide (p.1 = oid)), 1)
  | none => (coll, 0)

/-- Models `collection.find().to_list(n)`: at most `n` documents in natural order. -/
def find_to_list {α : Type} (coll : Coll α) (n : Nat) : Coll α :=
  coll.take n

/-- The `Event` payload model. -/
structure EventDoc where
  name : String
  description : String
  date : String
  venue_id : String
  max_attendees : Int
deriving DecidableEq, Repr

/-- The `Venue` payload model. -/
structure VenueDoc where
  name : String
  address : String
  capacity : Int
deriving DecidableEq, Repr

/-- The `Attendee` payload model. -/
structure AttendeeDoc where
  name : String
  email : String
  phone : Option String
deriving DecidableEq, Repr

/-- The `Booking` payload model. -/
structure BookingDoc where
  event_id : String
  attendee_id : String
  ticket_type : String
  quantity : Int
deriving DecidableEq, Repr

/-- A media document (poster / promo video / venue photo): parent id stored
as the string the handler placed in the document, filename, content type,
raw bytes, upload timestamp. -/
structure MediaDoc where
  parent_id : String
  filename : String
  content_type : String
  content : List UInt8
  uploaded_at : Nat
deriving DecidableEq, Repr

/-- An `UploadFile` as the handlers read it. -/
structure UploadFile where
  filename : String
  content_type : String
  content : List UInt8
deriving DecidableEq, Repr

/-- The database `db`: one collection per entity kind plus the three media
collections. -/
structure DB where
  events : Coll EventDoc
  venues : Coll VenueDoc
  attendees : Coll AttendeeDoc
  bookings : Coll BookingDoc
  event_posters : Coll MediaDoc
  promo_videos : Coll MediaDoc
  venue_photos : Coll MediaDoc
deriving DecidableEq, Repr

/-- Helper `validate_object_id(id_str, collection, name)`: parse the id (400
`Invalid {name} ID format` on failure), check a document with that id exists
in `collection` (400 `{name} not found` otherwise), return the parsed id. -/
def validate_object_id {α : Type} (id_str : String) (coll : Coll α)
    (name : String) : Except HTTPError ObjectId :=
  match parseObjectId id_str with
  | none => .error ⟨400, "Invalid " ++ name ++ " ID format"⟩
  | some obj_id =>
      match collFindOne coll obj_id with
      | none => .error ⟨400, name ++ " not found"⟩
      | some _ => .ok obj_id

/-- Endpoint `POST /events` — `create_event`: validate `event.venue_id` against the
venues collection, canonicalize it (`str(venue_obj_id)`), insert, 500 if the
store assigns no identifier, else return the new id as a string. -/
def create_event (db : DB) (event : EventDoc) (ins : Option ObjectId) :
    DB × Except HTTPError String :=
  match validate_object_id event.venue_id db.venues "Venue" with
  | .error e => (db, .error e)
  | .ok venue_obj_id =>
      let event_doc := { event with venue_id := venue_obj_id.toStr }
      let r := insert_one db.events event_doc ins
      match r.2 with
      | none => (db, .error ⟨500, "Failed to create event"⟩)
      | some i => ({ db with events := r.1 }, .ok i.toStr)

/-- Endpoint `GET /events` — `get_events`: up to 100 events, ids stringified. -/
def get_events (db : DB) : List (String × EventDoc) :=
  (find_to_list db.events 100).map (fun p => (p.1.toStr, p.2))

/-- Endpoint `GET /events/{event_id}` — `get_event`: 400 `Invalid event ID` on a
malformed id, 404 `Event not found` if absent, else the document with its
id stringified. -/
def get_event (db : DB) (event_id : String) :
    Except HTTPError (String × EventDoc) :=
  match parseObjectId event_id with
  | none => .error ⟨400, "Invalid event ID"⟩
  | some obj_id =>
      match collFindOne db.events obj_id with
      | none => .error ⟨404, "Event not found"⟩
      | some ev => .ok (obj_id.toStr, ev)

/-- Endpoint `PUT /events/{event_id}` — `update_event`: parse the primary id (400 on
failure), validate the payload's `venue_id` (as in create), `$set` the full
payload with the canonicalized venue id, 404 if no document matched. -/
def update_event (db : DB) (event_id : String) (event : EventDoc) :
    DB × Except HTTPError Unit :=
  match parseObjectId event_id with
  | none => (db, .error ⟨400, "Invalid event ID"⟩)
  | some event_obj_id =>
      match validate_object_id event.venue_id db.venues "Venue" with
      | .error e => (db, .error e)
      | .ok venue_obj_id =>
          let update_doc := { event with venue_id := venue_obj_id.toStr }
          let r := update_one db.events event_obj_id update_doc
          if r.2 == 0 then (db, .error ⟨404, "Event not found"⟩)
          else ({ db with events := r.1 }, .ok ())

/-- Endpoint `DELETE /events/{event_id}` — `delete_event`: 400 on a malformed id,
404 when nothing was deleted. -/
def delete_event (db : DB) (event_id : String) :
    DB × Except HTTPError Unit :=
  match parseObjectId event_id with
  | none => (db, .error ⟨400, "Invalid event ID"⟩)
  | some obj_id =>
      let r := delete_one db.events obj_id
      if r.2 == 0 then (db, .error ⟨404, "Event not found"⟩)
      else ({ db with events := r.1 }, .ok ())

/-- Endpoint `POST /venues` — `create_venue`: no references to validate; insert, 500
if the store assigns no identifier. -/
def create_venue (db : DB) (venue : VenueDoc) (ins : Option ObjectId) :
    DB × Except HTTPError String :=
  let r := insert_one db.venues venue ins
  match r.2 with
  | none => (db, .error ⟨500, "Failed to create venue"⟩)
  | some i => ({ db with venues := r.1 }, .ok i.toStr)

/-- Endpoint `GET /venues` — `get_venues`: up to 100 venues, ids stringified. -/
def get_venues (db : DB) : List (String × VenueDoc) :=
  (find_to_list db.venues 100).map (fun p => (p.1.toStr, p.2))

/-- Endpoint `GET /venues/{venue_id}` — `get_venue`. -/
def get_venue (db : DB) (venue_id : String) :
    Except HTTPError (String × VenueDoc) :=
  match parseObjectId venue_id with
  | none => .error ⟨400, "Invalid venue ID"⟩
  | some obj_id =>
      match collFindOne db.venues obj_id with
      | none => .error ⟨404, "Venue not found"⟩
      | some v => .ok (obj_id.toStr, v)

/-- Endpoint `PUT /venues/{venue_id}` — `update_venue`: no reference fields; `$set`
the full payload, 404 if no document matched, 400 on a malformed id. -/
def update_venue (db : DB) (venue_id : String) (venue : VenueDoc) :
    DB × Except HTTPError Unit :=
  match parseObjectId venue_id with
  | none => (db, .error ⟨400, "Invalid venue ID"⟩)
  | some obj_id =>
      let r := update_one db.venues obj_id venue
      if r.2 == 0 then (db, .error ⟨404, "Venue not found"⟩)
      else ({ db with venues := r.1 }, .ok ())

/-- Endpoint `DELETE /venues/{venue_id}` — `delete_venue`: hard delete of the venue
document only; no cascade to events referencing it. -/
def delete_venue (db : DB) (venue_id : String) :
    DB × Except HTTPError Unit :=
  match parseObjectId venue_id with
  | none => (db, .error ⟨400, "Invalid venue ID"⟩)
  | some obj_id =>
      let r := delete_one db.venues obj_id
      if r.2 == 0 then (db, .error ⟨404, "Venue not found"⟩)
      else ({ db with venues := r.1 }, .ok ())

/-- Endpoint `POST /attendees` — `create_attendee`. -/
def create_attendee (db : DB) (attendee : AttendeeDoc) (ins : Option ObjectId) :
    DB × Except HTTPError String :=
  let r := insert_one db.attendees attendee ins
  match r.2 with
  | none => (db, .error ⟨500, "Failed to create attendee"⟩)
  | some i => ({ db with attendees := r.1 }, .ok i.toStr)

/-- Endpoint `GET /attendees` — `get_attendees`: up to 100 attendees. -/
def get_attendees (db : DB) : List (String × AttendeeDoc) :=
  (find_to_list db.attendees 100).map (fun p => (p.1.toStr, p.2))

/-- Endpoint `GET /attendees/{attendee_id}` — `get_attendee`. -/
def get_attendee (db : DB) (attendee_id : String) :
    Except HTTPError (String × AttendeeDoc) :=
  match parseObjectId attendee_id with
  | none => .error ⟨400, "Invalid attendee ID"⟩
  | some obj_id =>
      match collFindOne db.attendees obj_id with
      | none => .error ⟨404, "Attendee not found"⟩
      | some a => .ok (obj_id.toStr, a)

/-- Endpoint `PUT /attendees/{attendee_id}` — `update_attendee`. -/
def update_attendee (db : DB) (attendee_id : String) (attendee : AttendeeDoc) :
    DB × Except HTTPError Unit :=
  match parseObjectId attendee_id with
  | none => (db, .error ⟨400, "Invalid attendee ID"⟩)
  | some obj_id =>
      let r := update_one db.attendees obj_id attendee
      if r.2 == 0 then (db, .error ⟨404, "Attendee not found"⟩)
      else ({ db with attendees := r.1 }, .ok ())

/-- Endpoint `DELETE /attendees/{attendee_id}` — `delete_attendee`. -/
def delete_attendee (db : DB) (attendee_id : String) :
    DB × Except HTTPError Unit :=
  match parseObjectId attendee_id with
  | none => (db, .error ⟨400, "Invalid attendee ID"⟩)
  | some obj_id =>
      let r := delete_one db.attendees obj_id
      if r.2 == 0 then (db, .error ⟨404, "Attendee not found"⟩)
      else ({ db with attendees := r.1 }, .ok ())

/-- Endpoint `POST /bookings` — `create_booking`: validate `event_id` against events,
then `attendee_id` against attendees; store both canonical; insert; 500 if
the store assigns no identifier. -/
def create_booking (db : DB) (booking : BookingDoc) (ins : Option ObjectId) :
    DB × Except HTTPError String :=
  match validate_object_id booking.event_id db.events "Event" with
  | .error e => (db, .error e)
  | .ok event_obj_id =>
      match validate_object_id booking.attendee_id db.attendees "Attendee" with
      | .error e => (db, .error e)
      | .ok attendee_obj_id =>
          let booking_doc := { booking with
            event_id := event_obj_id.toStr,
            attendee_id := attendee_obj_id.toStr }
          let r := insert_one db.bookings booking_doc ins
          match r.2 with
          | none => (db, .error ⟨500, "Failed to create booking"⟩)
          | some i => ({ db with bookings := r.1 }, .ok i.toStr)

/-- Endpoint `GET /bookings` — `get_bookings`: up to 100 bookings. -/
def get_bookings (db : DB) : List (String × BookingDoc) :=
  (find_to_list db.bookings 100).map (fun p => (p.1.toStr, p.2))

/-- Endpoint `GET /bookings/{booking_id}` — `get_booking`. -/
def get_booking (db : DB) (booking_id : String) :
    Except HTTPError (String × BookingDoc) :=
  match parseObjectId booking_id with
  | none => .error ⟨400, "Invalid booking ID"⟩
  | some obj_id =>
      match collFindOne db.bookings obj_id with
      | none => .error ⟨404, "Booking not found"⟩
      | some b => .ok (obj_id.toStr, b)

/-- Endpoint `PUT /bookings/{booking_id}` — `update_booking`: parse the primary id
(400 on failure), validate both references as in create, `$set` the full
payload with canonicalized foreign keys, 404 if no document matched. -/
def update_booking (db : DB) (booking_id : String) (booking : BookingDoc) :
    DB × Except HTTPError Unit :=
  match parseObjectId booking_id with
  | none => (db, .error ⟨400, "Invalid booking ID"⟩)
  | some booking_obj_id =>
      match validate_object_id booking.event_id db.events "Event" with
      | .error e => (db, .error e)
      | .ok event_obj_id =>
          match validate_object_id booking.attendee_id db.attendees "Attendee" with
          | .error e => (db, .error e)
          | .ok attendee_obj_id =>
              let update_doc := { booking with
                event_id := event_obj_id.toStr,
                attendee_id := attendee_obj_id.toStr }
              let r := update_one db.bookings booking_obj_id update_doc
              if r.2 == 0 then (db, .error ⟨404, "Booking not found"⟩)
              else ({ db with bookings := r.1 }, .ok ())

/-- Endpoint `DELETE /bookings/{booking_id}` — `delete_booking`. -/
def delete_booking (db : DB) (booking_id : String) :
    DB × Except HTTPError Unit :=
  match parseObjectId booking_id with
  | none => (db, .error ⟨400, "Invalid booking ID"⟩)
  | some obj_id =>
      let r := delete_one db.bookings obj_id
      if r.2 == 0 then (db, .error ⟨404, "Booking not found"⟩)
      else ({ db with bookings := r.1 }, .ok ())

/-- Endpoint `POST /upload_event_poster/{event_id}` — validate the parent event, insert
the poster document with the RAW `event_id` string, and return
`str(result.inserted_id)` with NO check on the inserted id: when the store
assigns none, the handler still answers 200 with the string `None`. -/
def upload_event_poster (db : DB) (event_id : String) (file : UploadFile)
    (now : Nat) (ins : Option ObjectId) : DB × Except HTTPError String :=
  match validate_object_id event_id db.events "Event" with
  | .error e => (db, .error e)
  | .ok _ =>
      let poster_doc : MediaDoc :=
        ⟨event_id, file.filename, file.content_type, file.content, now⟩
      let r := insert_one db.event_posters poster_doc ins
      match r.2 with
      | none => ({ db with event_posters := r.1 }, .ok "None")
      | some i => ({ db with event_posters := r.1 }, .ok i.toStr)

/-- Endpoint `POST /upload_promo_video/{event_id}` — validate the parent event, insert
the video document with the RAW `event_id` string, 500 if the store assigns
no identifier, else return the new id. -/
def upload_promo_video (db : DB) (event_id : String) (file : UploadFile)
    (now : Nat) (ins : Option ObjectId) : DB × Except HTTPError String :=
  match validate_object_id event_id db.events "Event" with
  | .error e => (db, .error e)
  | .ok _ =>
      let video_doc : MediaDoc :=
        ⟨event_id, file.filename, file.content_type, file.content, now⟩
      let r := insert_one db.promo_videos video_doc ins
      match r.2 with
      | none => (db, .error ⟨500, "Failed to upload promotional video"⟩)
      | some i => ({ db with promo_videos := r.1 }, .ok i.toStr)

/-- Endpoint `POST /upload_venue_photo/{venue_id}` — validate the parent venue, insert
the photo document with the RAW `venue_id` string, 500 if the store assigns
no identifier, else return the new id. -/
def upload_venue_photo (db : DB) (venue_id : String) (file : UploadFile)
    (now : Nat) (ins : Option ObjectId) : DB × Except HTTPError String :=
  match validate_object_id venue_id db.venues "Venue" with
  | .error e => (db, .error e)
  | .ok _ =>
      let photo_doc : MediaDoc :=
        ⟨venue_id, file.filename, file.content_type, file.content, now⟩
      let r := insert_one db.venue_photos photo_doc ins
      match r.2 with
      | none => (db, .error ⟨500, "Failed to upload venue photo"⟩)
      | some i => ({ db with venue_photos := r.1 }, .ok i.toStr)

/-- Sample identifier `a…a` (24 hex chars). -/
def oidA : ObjectId := ⟨"aaaaaaaaaaaaaaaaaaaaaaaa"⟩

/-- Sample identifier `b…b`. -/
def oidB : ObjectId := ⟨"bbbbbbbbbbbbbbbbbbbbbbbb"⟩

/-- Sample identifier `c…c`. -/
def oidC : ObjectId := ⟨"cccccccccccccccccccccccc"⟩

/-- Sample identifier `d…d`. -/
def oidD : ObjectId := ⟨"dddddddddddddddddddddddd"⟩

/-- Sample venue payload. -/
def venue0 : VenueDoc := ⟨"Hall A", "1 Main St", 200⟩

/-- Sample event payload, referencing `oidA` as its venue. -/
def event0 : EventDoc := ⟨"Launch", "demo", "2025-01-01", "aaaaaaaaaaaaaaaaaaaaaaaa", 150⟩

/-- Sample attendee payload. -/
def attendee0 : AttendeeDoc := ⟨"Jo", "jo@x.com", none⟩

/-- Sample booking payload, referencing `oidB` and `oidC`. -/
def booking0 : BookingDoc := ⟨"bbbbbbbbbbbbbbbbbbbbbbbb", "cccccccccccccccccccccccc", "GA", 2⟩

/-- Sample database: one venue (`oidA`), one event (`oidB`, referencing the
venue), one attendee (`oidC`), everything else empty. -/
def db0 : DB := ⟨[(oidB, event0)], [(oidA, venue0)], [(oidC, attendee0)], [], [], [], []⟩

/-- Sample upload. -/
def file0 : UploadFile := ⟨"p.png", "image/png", [1]⟩

/-- Sample event payload whose `venue_id` is well-formed but absent. -/
def eventBad : EventDoc := ⟨"Launch", "demo", "2025-01-01", "ffffffffffffffffffffffff", 150⟩

/-- Sample booking payload whose `event_id` is well-formed but absent. -/
def bookingBadEvent : BookingDoc :=
  ⟨"ffffffffffffffffffffffff", "cccccccccccccccccccccccc", "GA", 2⟩

/-- Sample booking payload whose `attendee_id` is well-formed but absent. -/
def bookingBadAttendee : BookingDoc :=
  ⟨"bbbbbbbbbbbbbbbbbbbbbbbb", "ffffffffffffffffffffffff", "GA", 2⟩

/-- Every error the reference validator produces is one of its two message
forms, both carrying status 400. -/
theorem validate_object_id_error_cases {α : Type} {s : String} {coll : Coll α}
    {name : String} {e : HTTPError}
    (h : validate_object_id s coll name = .error e) :
    e = ⟨400, "Invalid " ++ name ++ " ID format"⟩ ∨ e = ⟨400, name ++ " not found"⟩ := by
  unfold validate_object_id at h
  split at h
  · simp only [Except.error.injEq] at h
    exact Or.inl h.symm
  · split at h
    · simp only [Except.error.injEq] at h
      exact Or.inr h.symm
    · simp at h

/-- Every error the reference validator produces carries status 400. -/
theorem validate_object_id_error_status {α : Type} {s : String} {coll : Coll α}
    {name : String} {e : HTTPError}
    (h : validate_object_id s coll name = .error e) : e.status = 400 := by
  rcases validate_object_id_error_cases h with h' | h' <;> rw [h']

/-- C7: for every collection and every collection state, the list endpoint
returns at most 100 documents, regardless of how many the collection holds. -/
theorem list_returns_at_most_100 (db : DB) :
    (get_events db).length ≤ 100 ∧ (get_venues db).length ≤ 100 ∧
    (get_attendees db).length ≤ 100 ∧ (get_bookings db).length ≤ 100 := by
  refine ⟨?_, ?_, ?_, ?_⟩ <;>
    simp [get_events, get_venues, get_attendees, get_bookings, find_to_list]

/-- C8: deleting a venue mutates only the venues collection — every other
collection is untouched and every event read (`get_event`) returns exactly
what it returned before the deletion, so an event referencing the deleted
venue still resolves and still carries the dangling `venue_id` string. -/
theorem delete_venue_no_cascade (db : DB) (vid : String) :
    (delete_venue db vid).1.events = db.events ∧
    (delete_venue db vid).1.attendees = db.attendees ∧
    (delete_venue db vid).1.bookings = db.bookings ∧
    (delete_venue db vid).1.event_posters = db.event_posters ∧
    (delete_venue db vid).1.promo_videos = db.promo_videos ∧
    (delete_venue db vid).1.venue_photos = db.venue_photos ∧
    (∀ s, get_event (delete_venue db vid).1 s = get_event db s) := by
  cases hp : parseObjectId vid with
  | none => simp [delete_venue, hp]
  | some oid =>
      simp only [delete_venue, hp]
      split <;> simp [get_event]

/-- C3: a string that does not match the identifier syntax makes `get`,
`update` and `delete` fail with 400 `Invalid … ID` on every entity
repository, with the database unchanged. -/
theorem malformed_id_rejected (db : DB) (s : String)
    (ev : EventDoc) (v : VenueDoc) (a : AttendeeDoc) (b : BookingDoc)
    (h : parseObjectId s = none) :
    get_event db s = .error ⟨400, "Invalid event ID"⟩ ∧
    update_event db s ev = (db, .error ⟨400, "Invalid event ID"⟩) ∧
    delete_event db s = (db, .error ⟨400, "Invalid event ID"⟩) ∧
    get_venue db s = .error ⟨400, "Invalid venue ID"⟩ ∧
    update_venue db s v = (db, .error ⟨400, "Invalid venue ID"⟩) ∧
    delete_venue db s = (db, .error ⟨400, "Invalid venue ID"⟩) ∧
    get_attendee db s = .error ⟨400, "Invalid attendee ID"⟩ ∧
    update_attendee db s a = (db, .error ⟨400, "Invalid attendee ID"⟩) ∧
    delete_attendee db s = (db, .error ⟨400, "Invalid attendee ID"⟩) ∧
    get_booking db s = .error ⟨400, "Invalid booking ID"⟩ ∧
    update_booking db s b = (db, .error ⟨400, "Invalid booking ID"⟩) ∧
    delete_booking db s = (db, .error ⟨400, "Invalid booking ID"⟩) := by
  simp [get_event, update_event, delete_event, get_venue, update_venue,
    delete_venue, get_attendee, update_attendee, delete_attendee, get_booking,
    update_booking, delete_booking, h]

/-- C3 at a concrete input: the string `nope` is malformed and every
get/update/delete rejects it with 400, leaving the database unchanged. -/
theorem malformed_id_rejected_witness :
    parseObjectId "nope" = none ∧
    (get_event db0 "nope" = .error ⟨400, "Invalid event ID"⟩ ∧
     update_event db0 "nope" event0 = (db0, .error ⟨400, "Invalid event ID"⟩) ∧
     delete_event db0 "nope" = (db0, .error ⟨400, "Invalid event ID"⟩) ∧
     get_venue db0 "nope" = .error ⟨400, "Invalid venue ID"⟩ ∧
     update_venue db0 "nope" venue0 = (db0, .error ⟨400, "Invalid venue ID"⟩) ∧
     delete_venue db0 "nope" = (db0, .error ⟨400, "Invalid venue ID"⟩) ∧
     get_attendee db0 "nope" = .error ⟨400, "Invalid attendee ID"⟩ ∧
     update_attendee db0 "nope" attendee0 = (db0, .error ⟨400, "Invalid attendee ID"⟩) ∧
     delete_attendee db0 "nope" = (db0, .error ⟨400, "Invalid attendee ID"⟩) ∧
     get_booking db0 "nope" = .error ⟨400, "Invalid booking ID"⟩ ∧
     update_booking db0 "nope" booking0 = (db0, .error ⟨400, "Invalid booking ID"⟩) ∧
     delete_booking db0 "nope" = (db0, .error ⟨400, "Invalid booking ID"⟩)) :=
  ⟨by decide, malformed_id_rejected db0 "nope" event0 venue0 attendee0 booking0 (by decide)⟩

/-- C1: booking creation resolves both references before the insert; if
either fails, the database is returned unchanged (no booking persisted) and
the error message names the failing entity (`Event` or `Attendee`). -/
theorem create_booking_validates_both_refs (db : DB) (b : BookingDoc)
    (ins : Option ObjectId) :
    (∀ e, validate_object_id b.event_id db.events "Event" = .error e →
      create_booking db b ins = (db, .error e) ∧
      (e.detail = "Invalid Event ID format" ∨ e.detail = "Event not found")) ∧
    (∀ oid e, validate_object_id b.event_id db.events "Event" = .ok oid →
      validate_object_id b.attendee_id db.attendees "Attendee" = .error e →
      create_booking db b ins = (db, .error e) ∧
      (e.detail = "Invalid Attendee ID format" ∨ e.detail = "Attendee not found")) := by
  constructor
  · intro e he
    refine ⟨by simp [create_booking, he], ?_⟩
    rcases validate_object_id_error_cases he with h' | h' <;> rw [h']
    · left; rfl
    · right; rfl
  · intro oid e hok he
    refine ⟨by simp [create_booking, hok, he], ?_⟩
    rcases validate_object_id_error_cases he with h' | h' <;> rw [h']
    · left; rfl
    · right; rfl

/-- C1 at concrete inputs: an absent event reference and an absent attendee
reference each abort booking creation with the entity named, database
unchanged. -/
theorem create_booking_validates_both_refs_witness :
    (create_booking db0 bookingBadEvent none = (db0, .error ⟨400, "Event not found"⟩) ∧
      ((⟨400, "Event not found"⟩ : HTTPError).detail = "Invalid Event ID format" ∨
       (⟨400, "Event not found"⟩ : HTTPError).detail = "Event not found")) ∧
    (create_booking db0 bookingBadAttendee none = (db0, .error ⟨400, "Attendee not found"⟩) ∧
      ((⟨400, "Attendee not found"⟩ : HTTPError).detail = "Invalid Attendee ID format" ∨
       (⟨400, "Attendee not found"⟩ : HTTPError).detail = "Attendee not found")) :=
  ⟨(create_booking_validates_both_refs db0 bookingBadEvent none).1
      ⟨400, "Event not found"⟩ (by decide),
   (create_booking_validates_both_refs db0 bookingBadAttendee none).2
      oidB ⟨400, "Attendee not found"⟩ (by decide) (by decide)⟩

/-- C4: creating an event whose `venue_id` is well-formed but matches no
venue fails with the 400 reference error and inserts nothing; when the venue
resolves, the stored document carries the canonical string form of the
parsed identifier as its `venue_id`. -/
theorem create_event_venue_ref (db : DB) (ev : EventDoc) (oid i : ObjectId)
    (ins : Option ObjectId)
    (hp : parseObjectId ev.venue_id = some oid) :
    (collFindOne db.venues oid = none →
      create_event db ev ins = (db, .error ⟨400, "Venue not found"⟩)) ∧
    (∀ v, collFindOne db.venues oid = some v →
      create_event db ev (some i) =
        ({ db with events := db.events ++ [(i, { ev with venue_id := oid.toStr })] },
          .ok i.toStr)) := by
  constructor
  · intro hnone
    simp [create_event, validate_object_id, hp, hnone]
  · intro v hsome
    simp [create_event, validate_object_id, hp, hsome, insert_one]

/-- C4 at concrete inputs: a well-formed absent `venue_id` aborts the create;
a resolving `venue_id` persists the event with the canonical venue string. -/
theorem create_event_venue_ref_witness :
    (create_event db0 eventBad none = (db0, .error ⟨400, "Venue not found"⟩)) ∧
    (create_event db0 event0 (some oidD) =
      ({ db0 with events := db0.events ++ [(oidD, { event0 with venue_id := oidA.toStr })] },
        .ok oidD.toStr)) :=
  ⟨(create_event_venue_ref db0 eventBad ⟨"ffffffffffffffffffffffff"⟩ oidD none
      (by decide)).1 (by decide),
   (create_event_venue_ref db0 event0 oidA oidD (some oidD)
      (by decide)).2 venue0 (by decide)⟩

/-- C9: in updates, a malformed primary id is reported before any reference
validation, and reference validation is performed before the existence check
on the primary document — an update of a non-existent document with an
unresolvable reference reports the 400 reference error, not 404. -/
theorem update_error_precedence (db : DB) (s : String) (ev : EventDoc)
    (b : BookingDoc) :
    (parseObjectId s = none →
      update_event db s ev = (db, .error ⟨400, "Invalid event ID"⟩) ∧
      update_booking db s b = (db, .error ⟨400, "Invalid booking ID"⟩)) ∧
    (∀ oid e, parseObjectId s = some oid →
      collFindOne db.events oid = none →
      validate_object_id ev.venue_id db.venues "Venue" = .error e →
      update_event db s ev = (db, .error e) ∧ e.status = 400) ∧
    (∀ oid e, parseObjectId s = some oid →
      collFindOne db.bookings oid = none →
      validate_object_id b.event_id db.events "Event" = .error e →
      update_booking db s b = (db, .error e) ∧ e.status = 400) := by
  refine ⟨?_, ?_, ?_⟩
  · intro h
    exact ⟨by simp [update_event, h], by simp [update_booking, h]⟩
  · intro oid e hp _ hv
    exact ⟨by simp [update_event, hp, hv], validate_object_id_error_status hv⟩
  · intro oid e hp _ hb
    exact ⟨by simp [update_booking, hp, hb], validate_object_id_error_status hb⟩

/-- C9 at concrete inputs: a malformed primary id wins over a bad reference,
and on a well-formed absent primary id the bad reference wins over 404. -/
theorem update_error_precedence_witness :
    (update_event db0 "nope" eventBad = (db0, .error ⟨400, "Invalid event ID"⟩) ∧
     update_booking db0 "nope" bookingBadEvent = (db0, .error ⟨400, "Invalid booking ID"⟩)) ∧
    (update_event db0 "dddddddddddddddddddddddd" eventBad =
      (db0, .error ⟨400, "Venue not found"⟩) ∧
      (⟨400, "Venue not found"⟩ : HTTPError).status = 400) ∧
    (update_booking db0 "dddddddddddddddddddddddd" bookingBadEvent =
      (db0, .error ⟨400, "Event not found"⟩) ∧
      (⟨400, "Event not found"⟩ : HTTPError).status = 400) :=
  ⟨(update_error_precedence db0 "nope" eventBad bookingBadEvent).1 (by decide),
   (update_error_precedence db0 "dddddddddddddddddddddddd" eventBad bookingBadEvent).2.1
      oidD ⟨400, "Venue not found"⟩ (by decide) (by decide) (by decide),
   (update_error_precedence db0 "dddddddddddddddddddddddd" eventBad bookingBadEvent).2.2
      oidD ⟨400, "Event not found"⟩ (by decide) (by decide) (by decide)⟩

/-- Sample database with one booking (`oidD`) on top of `db0`. -/
def db1 : DB := { db0 with bookings := [(oidD, booking0)] }

/-- Sample event payload whose `venue_id` is upper-case hex for `oidA`. -/
def eventUpper : EventDoc := ⟨"Launch", "demo", "2025-01-01", "AAAAAAAAAAAAAAAAAAAAAAAA", 150⟩

/-- Sample booking payload whose `event_id` is upper-case hex for `oidB`. -/
def bookingUpper : BookingDoc :=
  ⟨"BBBBBBBBBBBBBBBBBBBBBBBB", "cccccccccccccccccccccccc", "GA", 2⟩

/-- C2: a well-formed identifier matching no document makes `get`, `update`
and `delete` on the directly addressed resource fail 404 NotFound, while an
unresolvable foreign-key reference in create, update or media upload fails
with the 400 reference error. -/
theorem notfound_404_vs_reference_400
    (db : DB) (s su sv : String) (oid : ObjectId)
    (evg evb : EventDoc) (bkg bkb bka : BookingDoc) (v : VenueDoc) (a : AttendeeDoc)
    (ins : Option ObjectId) (file : UploadFile) (now : Nat)
    (voId eoId aoId eoId2 : ObjectId) (ebv ebe eba eu euv : HTTPError)
    (hp : parseObjectId s = some oid)
    (hev : collFindOne db.events oid = none)
    (hvn : collFindOne db.venues oid = none)
    (hat : collFindOne db.attendees oid = none)
    (hbk : collFindOne db.bookings oid = none)
    (hg : validate_object_id evg.venue_id db.venues "Venue" = .ok voId)
    (hbadv : validate_object_id evb.venue_id db.venues "Venue" = .error ebv)
    (hge : validate_object_id bkg.event_id db.events "Event" = .ok eoId)
    (hga : validate_object_id bkg.attendee_id db.attendees "Attendee" = .ok aoId)
    (hbe : validate_object_id bkb.event_id db.events "Event" = .error ebe)
    (hbae : validate_object_id bka.event_id db.events "Event" = .ok eoId2)
    (hbaa : validate_object_id bka.attendee_id db.attendees "Attendee" = .error eba)
    (hue : validate_object_id su db.events "Event" = .error eu)
    (huv : validate_object_id sv db.venues "Venue" = .error euv) :
    get_event db s = .error ⟨404, "Event not found"⟩ ∧
    update_event db s evg = (db, .error ⟨404, "Event not found"⟩) ∧
    delete_event db s = (db, .error ⟨404, "Event not found"⟩) ∧
    get_venue db s = .error ⟨404, "Venue not found"⟩ ∧
    update_venue db s v = (db, .error ⟨404, "Venue not found"⟩) ∧
    delete_venue db s = (db, .error ⟨404, "Venue not found"⟩) ∧
    get_attendee db s = .error ⟨404, "Attendee not found"⟩ ∧
    update_attendee db s a = (db, .error ⟨404, "Attendee not found"⟩) ∧
    delete_attendee db s = (db, .error ⟨404, "Attendee not found"⟩) ∧
    get_booking db s = .error ⟨404, "Booking not found"⟩ ∧
    update_booking db s bkg = (db, .error ⟨404, "Booking not found"⟩) ∧
    delete_booking db s = (db, .error ⟨404, "Booking not found"⟩) ∧
    (create_event db evb ins = (db, .error ebv) ∧ ebv.status = 400) ∧
    update_event db s evb = (db, .error ebv) ∧
    (create_booking db bkb ins = (db, .error ebe) ∧ ebe.status = 400) ∧
    update_booking db s bkb = (db, .error ebe) ∧
    (create_booking db bka ins = (db, .error eba) ∧ eba.status = 400) ∧
    (upload_event_poster db su file now ins = (db, .error eu) ∧ eu.status = 400) ∧
    upload_promo_video db su file now ins = (db, .error eu) ∧
    (upload_venue_photo db sv file now ins = (db, .error euv) ∧ euv.status = 400) := by
  refine ⟨?_, ?_, ?_, ?_, ?_, ?_, ?_, ?_, ?_, ?_, ?_, ?_, ⟨?_, ?_⟩, ?_, ⟨?_, ?_⟩,
    ?_, ⟨?_, ?_⟩, ⟨?_, ?_⟩, ?_, ⟨?_, ?_⟩⟩
  · simp [get_event, hp, hev]
  · simp [update_event, hp, hg, update_one, hev]
  · simp [delete_event, hp, delete_one, hev]
  · simp [get_venue, hp, hvn]
  · simp [update_venue, hp, update_one, hvn]
  · simp [delete_venue, hp, delete_one, hvn]
  · simp [get_attendee, hp, hat]
  · simp [update_attendee, hp, update_one, hat]
  · simp [delete_attendee, hp, delete_one, hat]
  · simp [get_booking, hp, hbk]
  · simp [update_booking, hp, hge, hga, update_one, hbk]
  · simp [delete_booking, hp, delete_one, hbk]
  · simp [create_event, hbadv]
  · exact validate_object_id_error_status hbadv
  · simp [update_event, hp, hbadv]
  · simp [create_booking, hbe]
  · exact validate_object_id_error_status hbe
  · simp [update_booking, hp, hbe]
  · simp [create_booking, hbae, hbaa]
  · exact validate_object_id_error_status hbaa
  · simp [upload_event_poster, hue]
  · exact validate_object_id_error_status hue
  · simp [upload_promo_video, hue]
  · simp [upload_venue_photo, huv]
  · exact validate_object_id_error_status huv

/-- C2 at concrete inputs: the absent id `d…d` yields 404 on direct reads,
updates and deletes, while the absent references yield 400. -/
theorem notfound_404_vs_reference_400_witness :
    get_event db0 "dddddddddddddddddddddddd" = .error ⟨404, "Event not found"⟩ ∧
    update_event db0 "dddddddddddddddddddddddd" event0 =
      (db0, .error ⟨404, "Event not found"⟩) ∧
    update_booking db0 "dddddddddddddddddddddddd" booking0 =
      (db0, .error ⟨404, "Booking not found"⟩) ∧
    update_event db0 "dddddddddddddddddddddddd" eventBad =
      (db0, .error ⟨400, "Venue not found"⟩) ∧
    upload_event_poster db0 "ffffffffffffffffffffffff" file0 0 none =
      (db0, .error ⟨400, "Event not found"⟩) := by
  have h := notfound_404_vs_reference_400 db0 "dddddddddddddddddddddddd"
    "ffffffffffffffffffffffff" "ffffffffffffffffffffffff" oidD event0 eventBad
    booking0 bookingBadEvent bookingBadAttendee venue0 attendee0 none file0 0
    oidA oidB oidC oidB ⟨400, "Venue not found"⟩ ⟨400, "Event not found"⟩
    ⟨400, "Attendee not found"⟩ ⟨400, "Event not found"⟩ ⟨400, "Venue not found"⟩
    (by decide) (by decide) (by decide) (by decide) (by decide) (by decide)
    (by decide) (by decide) (by decide) (by decide) (by decide) (by decide)
    (by decide) (by decide)
  obtain ⟨c1, c2, c3, c4, c5, c6, c7, c8, c9, c10, c11, c12, c13, c14, c15,
    c16, c17, c18, c19, c20⟩ := h
  exact ⟨c1, c2, c11, c14, c18.1⟩

/-- C6: event and booking updates re-run the same reference validation as
create (the same validator failure aborts both the same way), replace the
stored document's fields with the payload's fields on success, and fail 400
malformed-id, 400 reference, or 404 not-found accordingly. -/
theorem update_revalidates_and_replaces (db : DB) (s : String) (ev : EventDoc)
    (b : BookingDoc) (ins : Option ObjectId) :
    (parseObjectId s = none →
      update_event db s ev = (db, .error ⟨400, "Invalid event ID"⟩) ∧
      update_booking db s b = (db, .error ⟨400, "Invalid booking ID"⟩)) ∧
    (∀ oid e, parseObjectId s = some oid →
      validate_object_id ev.venue_id db.venues "Venue" = .error e →
      update_event db s ev = (db, .error e) ∧
      create_event db ev ins = (db, .error e)) ∧
    (∀ oid e, parseObjectId s = some oid →
      validate_object_id b.event_id db.events "Event" = .error e →
      update_booking db s b = (db, .error e) ∧
      create_booking db b ins = (db, .error e)) ∧
    (∀ oid eoId e, parseObjectId s = some oid →
      validate_object_id b.event_id db.events "Event" = .ok eoId →
      validate_object_id b.attendee_id db.attendees "Attendee" = .error e →
      update_booking db s b = (db, .error e) ∧
      create_booking db b ins = (db, .error e)) ∧
    (∀ oid voId, parseObjectId s = some oid →
      validate_object_id ev.venue_id db.venues "Venue" = .ok voId →
      collFindOne db.events oid = none →
      update_event db s ev = (db, .error ⟨404, "Event not found"⟩)) ∧
    (∀ oid voId ev0, parseObjectId s = some oid →
      validate_object_id ev.venue_id db.venues "Venue" = .ok voId →
      collFindOne db.events oid = some ev0 →
      update_event db s ev =
        ({ db with
            events := db.events.map (fun p =>
                if p.1 = oid then (oid, { ev with venue_id := voId.toStr }) else p) },
          .ok ())) ∧
    (∀ oid eoId aoId, parseObjectId s = some oid →
      validate_object_id b.event_id db.events "Event" = .ok eoId →
      validate_object_id b.attendee_id db.attendees "Attendee" = .ok aoId →
      collFindOne db.bookings oid = none →
      update_booking db s b = (db, .error ⟨404, "Booking not found"⟩)) ∧
    (∀ oid eoId aoId b0, parseObjectId s = some oid →
      validate_object_id b.event_id db.events "Event" = .ok eoId →
      validate_object_id b.attendee_id db.attendees "Attendee" = .ok aoId →
      collFindOne db.bookings oid = some b0 →
      update_booking db s b =
        ({ db with
            bookings := db.bookings.map (fun p =>
                if p.1 = oid then
                  (oid, { b with event_id := eoId.toStr, attendee_id := aoId.toStr })
                else p) },
          .ok ())) := by
  refine ⟨?_, ?_, ?_, ?_, ?_, ?_, ?_, ?_⟩
  · intro h
    exact ⟨by simp [update_event, h], by simp [update_booking, h]⟩
  · intro oid e hp hv
    exact ⟨by simp [update_event, hp, hv], by simp [create_event, hv]⟩
  · intro oid e hp hb
    exact ⟨by simp [update_booking, hp, hb], by simp [create_booking, hb]⟩
  · intro oid eoId e hp hok hb
    exact ⟨by simp [update_booking, hp, hok, hb], by simp [create_booking, hok, hb]⟩
  · intro oid voId hp hv hn
    simp [update_event, hp, hv, update_one, hn]
  · intro oid voId ev0 hp hv hs
    simp [update_event, hp, hv, update_one, hs]
  · intro oid eoId aoId hp hie hia hn
    simp [update_booking, hp, hie, hia, update_one, hn]
  · intro oid eoId aoId b0 hp hie hia hs
    simp [update_booking, hp, hie, hia, update_one, hs]

/-- C6 at concrete inputs: malformed id, failing reference, 404 on an absent
target, and the full field replacement on a present target, for both an
event and a booking. -/
theorem update_revalidates_and_replaces_witness :
    update_event db0 "nope" event0 = (db0, .error ⟨400, "Invalid event ID"⟩) ∧
    update_event db0 "bbbbbbbbbbbbbbbbbbbbbbbb" eventBad =
      (db0, .error ⟨400, "Venue not found"⟩) ∧
    update_event db0 "dddddddddddddddddddddddd" event0 =
      (db0, .error ⟨404, "Event not found"⟩) ∧
    update_event db0 "bbbbbbbbbbbbbbbbbbbbbbbb" event0 =
      ({ db0 with
          events := db0.events.map (fun p =>
              if p.1 = oidB then (oidB, { event0 with venue_id := oidA.toStr }) else p) },
        .ok ()) ∧
    update_booking db1 "dddddddddddddddddddddddd" booking0 =
      ({ db1 with
          bookings := db1.bookings.map (fun p =>
              if p.1 = oidD then
                (oidD, { booking0 with event_id := oidB.toStr, attendee_id := oidC.toStr })
              else p) },
        .ok ()) := by
  have h1 := update_revalidates_and_replaces db0 "nope" event0 booking0 none
  have h2 := update_revalidates_and_replaces db0 "bbbbbbbbbbbbbbbbbbbbbbbb" eventBad booking0 none
  have h3 := update_revalidates_and_replaces db0 "dddddddddddddddddddddddd" event0 booking0 none
  have h4 := update_revalidates_and_replaces db0 "bbbbbbbbbbbbbbbbbbbbbbbb" event0 booking0 none
  have h5 := update_revalidates_and_replaces db1 "dddddddddddddddddddddddd" event0 booking0 none
  exact ⟨(h1.1 (by decide)).1,
    (h2.2.1 oidB ⟨400, "Venue not found"⟩ (by decide) (by decide)).1,
    h3.2.2.2.2.1 oidD oidA (by decide) (by decide) (by decide),
    h4.2.2.2.2.2.1 oidB oidA event0 (by decide) (by decide) (by decide),
    h5.2.2.2.2.2.2.2 oidD oidB oidC booking0 (by decide) (by decide) (by decide) (by decide)⟩

/-- C5 counterexample: with the parent event present and the store assigning
no identifier on insert, the event-poster upload does not fail with a 500
persistence error — it answers success, rendering the missing identifier as
the string `None`. -/
theorem upload_poster_missing_persistence_check :
    upload_event_poster db0 "bbbbbbbbbbbbbbbbbbbbbbbb" file0 0 none =
      (db0, .ok "None") := by decide

/-- C5 amended: after the parent reference validates, each of the three
uploads returns the newly assigned identifier; when the store assigns no
identifier, the promo-video and venue-photo uploads fail with the 500
persistence error, but the event-poster upload still answers success. -/
theorem upload_persistence_check (db : DB) (eid vid : String)
    (file : UploadFile) (now : Nat) (i oe ov : ObjectId)
    (he : validate_object_id eid db.events "Event" = .ok oe)
    (hv : validate_object_id vid db.venues "Venue" = .ok ov) :
    (upload_event_poster db eid file now (some i)).2 = .ok i.toStr ∧
    (upload_promo_video db eid file now (some i)).2 = .ok i.toStr ∧
    (upload_venue_photo db vid file now (some i)).2 = .ok i.toStr ∧
    upload_promo_video db eid file now none =
      (db, .error ⟨500, "Failed to upload promotional video"⟩) ∧
    upload_venue_photo db vid file now none =
      (db, .error ⟨500, "Failed to upload venue photo"⟩) ∧
    (upload_event_poster db eid file now none).2 = .ok "None" := by
  refine ⟨?_, ?_, ?_, ?_, ?_, ?_⟩ <;>
    simp [upload_event_poster, upload_promo_video, upload_venue_photo,
      he, hv, insert_one]

/-- C5 amended, at concrete inputs: assigned identifiers are returned; a
missing identifier gives 500 on video and photo but success on poster. -/
theorem upload_persistence_check_witness :
    (upload_event_poster db0 "bbbbbbbbbbbbbbbbbbbbbbbb" file0 0 (some oidD)).2 =
      .ok oidD.toStr ∧
    (upload_promo_video db0 "bbbbbbbbbbbbbbbbbbbbbbbb" file0 0 (some oidD)).2 =
      .ok oidD.toStr ∧
    (upload_venue_photo db0 "aaaaaaaaaaaaaaaaaaaaaaaa" file0 0 (some oidD)).2 =
      .ok oidD.toStr ∧
    upload_promo_video db0 "bbbbbbbbbbbbbbbbbbbbbbbb" file0 0 none =
      (db0, .error ⟨500, "Failed to upload promotional video"⟩) ∧
    upload_venue_photo db0 "aaaaaaaaaaaaaaaaaaaaaaaa" file0 0 none =
      (db0, .error ⟨500, "Failed to upload venue photo"⟩) ∧
    (upload_event_poster db0 "bbbbbbbbbbbbbbbbbbbbbbbb" file0 0 none).2 = .ok "None" :=
  upload_persistence_check db0 "bbbbbbbbbbbbbbbbbbbbbbbb" "aaaaaaaaaaaaaaaaaaaaaaaa"
    file0 0 oidD oidB oidA (by decide) (by decide)

/-- C10: a successful media upload persists the raw caller-supplied parent-id
string unchanged, whereas event and booking creation persist their foreign
keys re-rendered through the identifier codec (canonical form). -/
theorem media_raw_vs_create_canonical (db : DB) (eid vid aid : String)
    (file : UploadFile) (now : Nat) (i oe ov oa : ObjectId)
    (ev : EventDoc) (b : BookingDoc)
    (he : validate_object_id eid db.events "Event" = .ok oe)
    (hv : validate_object_id vid db.venues "Venue" = .ok ov)
    (ha : validate_object_id aid db.attendees "Attendee" = .ok oa)
    (hev : ev.venue_id = vid)
    (hbe : b.event_id = eid) (hba : b.attendee_id = aid) :
    (upload_event_poster db eid file now (some i)).1.event_posters =
      db.event_posters ++ [(i, ⟨eid, file.filename, file.content_type, file.content, now⟩)] ∧
    (upload_promo_video db eid file now (some i)).1.promo_videos =
      db.promo_videos ++ [(i, ⟨eid, file.filename, file.content_type, file.content, now⟩)] ∧
    (upload_venue_photo db vid file now (some i)).1.venue_photos =
      db.venue_photos ++ [(i, ⟨vid, file.filename, file.content_type, file.content, now⟩)] ∧
    (create_event db ev (some i)).1.events =
      db.events ++ [(i, { ev with venue_id := ov.toStr })] ∧
    (create_booking db b (some i)).1.bookings =
      db.bookings ++ [(i, { b with event_id := oe.toStr, attendee_id := oa.toStr })] := by
  refine ⟨?_, ?_, ?_, ?_, ?_⟩ <;>
    simp [upload_event_poster, upload_promo_video, upload_venue_photo,
      create_event, create_booking, he, hv, ha, hev, hbe, hba, insert_one]

/-- C10 at concrete inputs: upper-case parent ids are persisted verbatim by
the uploads, while create persists the lower-case canonical rendering of the
same identifiers. -/
theorem media_raw_vs_create_canonical_witness :
    (upload_event_poster db0 "BBBBBBBBBBBBBBBBBBBBBBBB" file0 0 (some oidD)).1.event_posters =
      db0.event_posters ++
        [(oidD, ⟨"BBBBBBBBBBBBBBBBBBBBBBBB", file0.filename, file0.content_type,
          file0.content, 0⟩)] ∧
    (upload_promo_video db0 "BBBBBBBBBBBBBBBBBBBBBBBB" file0 0 (some oidD)).1.promo_videos =
      db0.promo_videos ++
        [(oidD, ⟨"BBBBBBBBBBBBBBBBBBBBBBBB", file0.filename, file0.content_type,
          file0.content, 0⟩)] ∧
    (upload_venue_photo db0 "AAAAAAAAAAAAAAAAAAAAAAAA" file0 0 (some oidD)).1.venue_photos =
      db0.venue_photos ++
        [(oidD, ⟨"AAAAAAAAAAAAAAAAAAAAAAAA", file0.filename, file0.content_type,
          file0.content, 0⟩)] ∧
    (create_event db0 eventUpper (some oidD)).1.events =
      db0.events ++ [(oidD, { eventUpper with venue_id := oidA.toStr })] ∧
    (create_booking db0 bookingUpper (some oidD)).1.bookings =
      db0.bookings ++
        [(oidD, { bookingUpper with event_id := oidB.toStr, attendee_id := oidC.toStr })] :=
  media_raw_vs_create_canonical db0 "BBBBBBBBBBBBBBBBBBBBBBBB" "AAAAAAAAAAAAAAAAAAAAAAAA"
    "cccccccccccccccccccccccc" file0 0 oidD oidB oidA oidC eventUpper bookingUpper
    (by decide) (by decide) (by decide) (by decide) (by decide) (by decide)
